import Mathlib

/-!
Shallow embedding of the stock & transaction accounting core of the `inv`
repository: `src/models/inventory.py`, `src/models/transaction.py`,
`src/services/stock_calculator.py`, `src/services/data_validation.py`, with
configuration constants from `config.py`.

Modelling conventions: Python `int` is `Int`, Python `float` is `ℚ`,
`datetime.now ()` timestamps are an explicit `now : Int` argument threaded into
every mutating operation, `date` values are `Int` day ordinals, and Python
dicts are insertion-ordered association lists `List (String × α)`.  Methods
that mutate `self` and return a `bool` are modelled as functions returning the
new value paired with the `bool`.
-/

namespace Inv

/-- Stock status enumeration, from the `StockStatus` enum in inventory.py. -/
inductive StockStatus where
  | out_of_stock
  | critical
  | low
  | normal
  | overstocked
  deriving DecidableEq, Repr

/-- String value of each `StockStatus` member, as in the Python enum. -/
def StockStatus.value : StockStatus → String
  | .out_of_stock => "out_of_stock"
  | .critical => "critical"
  | .low => "low"
  | .normal => "normal"
  | .overstocked => "overstocked"

/-- Fields of the `InventoryItem` dataclass (inventory.py lines 19-34).
The Python defaults (opening_stock=0, min_stock=10, max_stock=1000, ...) are
call-site sugar and are not repeated here; `expiry_date` is an optional day
ordinal and `last_updated` a timestamp. -/
structure InventoryItem where
  product_id : String
  product_name : String
  weight_kg : ℚ
  current_stock : Int
  opening_stock : Int
  min_stock : Int
  max_stock : Int
  unit_price : ℚ
  location : String
  batch_number : String
  expiry_date : Option Int
  last_updated : Int
  deriving DecidableEq, Repr

/-- Validation run by `InventoryItem.__post_init__` (inventory.py lines 36-45):
raising `ValueError` is modelled as `Except.error` with the message raised. -/
def InventoryItem.post_init (item : InventoryItem) : Except String InventoryItem :=
  if item.current_stock < 0 then .error "Current stock cannot be negative"
  else if item.min_stock < 0 then .error "Minimum stock cannot be negative"
  else if item.max_stock < item.min_stock then .error "Maximum stock cannot be less than minimum stock"
  else .ok item

/-- Construction of an `InventoryItem`: dataclass field assignment followed by
`__post_init__`; a raised `ValueError` means the caller receives no item. -/
def mkInventoryItem (product_id product_name : String) (weight_kg : ℚ)
    (current_stock opening_stock min_stock max_stock : Int) (unit_price : ℚ)
    (location batch_number : String) (expiry_date : Option Int) (last_updated : Int) :
    Except String InventoryItem :=
  InventoryItem.post_init
    { product_id := product_id, product_name := product_name, weight_kg := weight_kg,
      current_stock := current_stock, opening_stock := opening_stock, min_stock := min_stock,
      max_stock := max_stock, unit_price := unit_price, location := location,
      batch_number := batch_number, expiry_date := expiry_date, last_updated := last_updated }

/-- Critical stock threshold.  inventory.py line 52 reads
`config.CRITICAL_STOCK_THRESHOLD`, but config.py defines the constant (value 5)
only inside the `DASHBOARD_CONFIG` dict (line 215), not as a module-level
attribute, so the runtime attribute access raises `AttributeError`.  The value
5 is the one intended throughout the repository: `DASHBOARD_CONFIG` and
`BUSINESS_RULES` in utils/constants.py both say 5, and dashboard_widgets.py
line 237 defaults `getattr(config, 'CRITICAL_STOCK_THRESHOLD', 5)` to 5.
This definition is modelled from that intended value. -/
def CRITICAL_STOCK_THRESHOLD : Int := 5

/-- Derived stock status (inventory.py lines 47-59), evaluated in priority
order: out of stock, critical, low, overstocked, normal. -/
def InventoryItem.stock_status (item : InventoryItem) : StockStatus :=
  if item.current_stock = 0 then .out_of_stock
  else if item.current_stock ≤ CRITICAL_STOCK_THRESHOLD then .critical
  else if item.current_stock ≤ item.min_stock then .low
  else if item.current_stock ≥ item.max_stock then .overstocked
  else .normal

/-- Total stock value, `current_stock * unit_price` (inventory.py line 64). -/
def InventoryItem.stock_value (item : InventoryItem) : ℚ :=
  (item.current_stock : ℚ) * item.unit_price

/-- Recommended reorder quantity, `max(max_stock - current_stock, 0)`
(inventory.py line 84). -/
def InventoryItem.reorder_quantity (item : InventoryItem) : Int :=
  max (item.max_stock - item.current_stock) 0

/-- Stock adjustment (inventory.py lines 86-95): fails without mutation when
the resulting stock would be negative. -/
def InventoryItem.adjust_stock (item : InventoryItem) (quantity now : Int) :
    InventoryItem × Bool :=
  let new_stock := item.current_stock + quantity
  if new_stock < 0 then (item, false)
  else ({ item with current_stock := new_stock, last_updated := now }, true)

/-- Absolute stock update (inventory.py lines 97-104): fails without mutation
when the new level is negative. -/
def InventoryItem.set_stock_level (item : InventoryItem) (new_level now : Int) :
    InventoryItem × Bool :=
  if new_level < 0 then (item, false)
  else ({ item with current_stock := new_level, last_updated := now }, true)

/-- Stock reduction for sales (inventory.py lines 106-112): succeeds exactly
when the current stock covers the quantity. -/
def InventoryItem.reduce_stock (item : InventoryItem) (quantity now : Int) :
    InventoryItem × Bool :=
  if item.current_stock ≥ quantity then
    ({ item with current_stock := item.current_stock - quantity, last_updated := now }, true)
  else (item, false)

/-- Stock addition for purchases/production (inventory.py lines 114-118):
unconditional addition, always returns true. -/
def InventoryItem.add_stock (item : InventoryItem) (quantity now : Int) :
    InventoryItem × Bool :=
  ({ item with current_stock := item.current_stock + quantity, last_updated := now }, true)

/-- One invocation of a stock operation, carrying its quantity and the
timestamp at which it runs. -/
inductive StockOp where
  | adjust (quantity now : Int)
  | reduce (quantity now : Int)
  | add (quantity now : Int)
  deriving DecidableEq, Repr

/-- State reached after one stock operation (the returned success flag is
discarded; a failed operation leaves the item unchanged). -/
def applyStockOp (item : InventoryItem) : StockOp → InventoryItem
  | .adjust q now => (item.adjust_stock q now).1
  | .reduce q now => (item.reduce_stock q now).1
  | .add q now => (item.add_stock q now).1

/-- Whether an operation stays on its documented path: `add_stock` is
documented for qty ≥ 0 (purchases/production); the other two take any int. -/
def StockOp.documented : StockOp → Bool
  | .add q _ => decide (0 ≤ q)
  | _ => true

/-- Concrete inventory item used to instantiate theorems: the default
"Roasted Chana 1.0kg" shape from `_load_default_inventory` with stock 10. -/
def item0 : InventoryItem :=
  { product_id := "RC_1.0KG", product_name := "Roasted Chana 1.0kg", weight_kg := 1,
    current_stock := 10, opening_stock := 10, min_stock := 10, max_stock := 1000,
    unit_price := 100, location := "Main Warehouse", batch_number := "",
    expiry_date := none, last_updated := 0 }

/-- Claim C1: from any validly constructed item (current_stock ≥ 0), every
state reachable via adjust_stock, reduce_stock and add_stock (the latter with
qty ≥ 0, its documented path) keeps current_stock ≥ 0; adjust_stock returns
false and leaves the item unchanged whenever current_stock + delta < 0; and
add_stock always succeeds. -/
theorem stock_ops_preserve_nonneg (item : InventoryItem) (ops : List StockOp)
    (h0 : 0 ≤ item.current_stock) (hops : ops.all StockOp.documented = true) :
    0 ≤ (ops.foldl applyStockOp item).current_stock
    ∧ (∀ q now, item.current_stock + q < 0 → item.adjust_stock q now = (item, false))
    ∧ (∀ q now, (item.add_stock q now).2 = true) := by
  refine ⟨?_, ?_, ?_⟩
  · induction ops generalizing item with
    | nil => exact h0
    | cons op rest ih =>
      simp only [List.all_cons, Bool.and_eq_true] at hops
      have hstep : 0 ≤ (applyStockOp item op).current_stock := by
        cases op with
        | adjust q now =>
          simp only [applyStockOp, InventoryItem.adjust_stock]
          split <;> simp <;> omega
        | reduce q now =>
          simp only [applyStockOp, InventoryItem.reduce_stock]
          split <;> simp <;> omega
        | add q now =>
          have hq : 0 ≤ q := by
            have := hops.1
            simpa [StockOp.documented] using this
          simp only [applyStockOp, InventoryItem.add_stock]
          simp
          omega
      simpa using ih (applyStockOp item op) hstep hops.2
  · intro q now h
    simp only [InventoryItem.adjust_stock]
    rw [if_pos]
    omega
  · intro q now
    rfl

/-- Witness for C1 at a concrete item and operation list. -/
theorem stock_ops_preserve_nonneg_witness :
    (0 ≤ item0.current_stock
      ∧ ([StockOp.adjust (-5) 1, StockOp.reduce 3 2, StockOp.add 4 3].all StockOp.documented = true))
    ∧ 0 ≤ ([StockOp.adjust (-5) 1, StockOp.reduce 3 2, StockOp.add 4 3].foldl applyStockOp item0).current_stock
    ∧ item0.adjust_stock (-20) 5 = (item0, false)
    ∧ (item0.add_stock 7 6).2 = true := by
  have h := stock_ops_preserve_nonneg item0
    [StockOp.adjust (-5) 1, StockOp.reduce 3 2, StockOp.add 4 3] (by decide) (by decide)
  exact ⟨⟨by decide, by decide⟩, h.1, h.2.1 (-20) 5 (by decide), h.2.2 7 6⟩

/-- Claim C3: reduce_stock succeeds iff qty ≤ current_stock; on success the
stock drops by exactly qty (qty = current_stock lands exactly on 0), and on
failure (in particular qty = current_stock + 1) the item is returned unchanged
with false. -/
theorem reduce_stock_characterization (item : InventoryItem) (q now : Int) :
    ((item.reduce_stock q now).2 = true ↔ q ≤ item.current_stock)
    ∧ (q ≤ item.current_stock →
        (item.reduce_stock q now).1.current_stock = item.current_stock - q)
    ∧ (item.current_stock < q → item.reduce_stock q now = (item, false))
    ∧ (item.reduce_stock item.current_stock now).1.current_stock = 0
    ∧ item.reduce_stock (item.current_stock + 1) now = (item, false) := by
  refine ⟨?_, ?_, ?_, ?_, ?_⟩
  · simp only [InventoryItem.reduce_stock]
    split <;> simp <;> omega
  · intro h
    simp only [InventoryItem.reduce_stock]
    rw [if_pos (by omega)]
  · intro h
    simp only [InventoryItem.reduce_stock]
    rw [if_neg (by omega)]
  · simp only [InventoryItem.reduce_stock]
    rw [if_pos (by omega)]
    simp
  · simp only [InventoryItem.reduce_stock]
    rw [if_neg (by omega)]

/-- Witness for C3 at a concrete item and quantities. -/
theorem reduce_stock_characterization_witness :
    ((4 : Int) ≤ item0.current_stock ∧ item0.current_stock < 11)
    ∧ (item0.reduce_stock 4 9).2 = true
    ∧ (item0.reduce_stock 4 9).1.current_stock = item0.current_stock - 4
    ∧ item0.reduce_stock 11 9 = (item0, false)
    ∧ (item0.reduce_stock item0.current_stock 9).1.current_stock = 0 := by
  have h4 := reduce_stock_characterization item0 4 9
  have h11 := reduce_stock_characterization item0 11 9
  exact ⟨⟨by decide, by decide⟩, h4.1.mpr (by decide), h4.2.1 (by decide),
    h11.2.2.1 (by decide), h4.2.2.2.1⟩

/-- Claim C4: construction fails (ValueError from __post_init__, no item
produced) exactly when current_stock < 0, min_stock < 0 or
max_stock < min_stock; otherwise it succeeds with the given field values. -/
theorem construction_validation (pid pname : String) (w : ℚ)
    (cur op mn mx : Int) (price : ℚ) (loc bn : String) (exp : Option Int) (lu : Int) :
    ((mkInventoryItem pid pname w cur op mn mx price loc bn exp lu).toOption
        = some { product_id := pid, product_name := pname, weight_kg := w,
                 current_stock := cur, opening_stock := op, min_stock := mn, max_stock := mx,
                 unit_price := price, location := loc, batch_number := bn,
                 expiry_date := exp, last_updated := lu }
      ↔ 0 ≤ cur ∧ 0 ≤ mn ∧ mn ≤ mx)
    ∧ ((mkInventoryItem pid pname w cur op mn mx price loc bn exp lu).toOption = none
      ↔ cur < 0 ∨ mn < 0 ∨ mx < mn) := by
  simp only [mkInventoryItem, InventoryItem.post_init]
  constructor
  · split_ifs with h1 h2 h3 <;> simp [Except.toOption] <;> omega
  · split_ifs with h1 h2 h3 <;> simp [Except.toOption] <;> omega

/-- Witness for C4: a valid construction and an invalid one (max < min). -/
theorem construction_validation_witness :
    ((0 : Int) ≤ 45 ∧ (0 : Int) ≤ 50 ∧ (50 : Int) ≤ 200)
    ∧ (mkInventoryItem "RC_1.0KG" "Roasted Chana 1.0kg" 1 45 0 50 200 100
        "Main Warehouse" "" none 0).toOption
        = some { product_id := "RC_1.0KG", product_name := "Roasted Chana 1.0kg",
                 weight_kg := 1, current_stock := 45, opening_stock := 0, min_stock := 50,
                 max_stock := 200, unit_price := 100, location := "Main Warehouse",
                 batch_number := "", expiry_date := none, last_updated := 0 }
    ∧ (mkInventoryItem "RC_1.0KG" "Roasted Chana 1.0kg" 1 45 0 50 40 100
        "Main Warehouse" "" none 0).toOption = none := by
  have hok := construction_validation "RC_1.0KG" "Roasted Chana 1.0kg" 1 45 0 50 200 100
    "Main Warehouse" "" none 0
  have hbad := construction_validation "RC_1.0KG" "Roasted Chana 1.0kg" 1 45 0 50 40 100
    "Main Warehouse" "" none 0
  exact ⟨⟨by decide, by decide, by decide⟩,
    hok.1.mpr ⟨by decide, by decide, by decide⟩,
    hbad.2.mpr (Or.inr (Or.inr (by decide)))⟩

/-- Concrete item of Scenario A: current_stock 45, min_stock 50, max_stock 200. -/
def item45 : InventoryItem :=
  { product_id := "RC_1.0KG", product_name := "Roasted Chana 1.0kg", weight_kg := 1,
    current_stock := 45, opening_stock := 0, min_stock := 50, max_stock := 200,
    unit_price := 100, location := "Main Warehouse", batch_number := "",
    expiry_date := none, last_updated := 0 }

/-- Claim C2: characterization of the derived stock status in priority order
(with the critical threshold 5 of DASHBOARD_CONFIG), plus Scenario A: the item
with current_stock=45, min_stock=50, max_stock=200 constructs successfully,
has status LOW and reorder_quantity 155. -/
theorem stock_status_classification (item : InventoryItem) :
    (item.stock_status = .out_of_stock ↔ item.current_stock = 0)
    ∧ (item.stock_status = .critical
        ↔ ¬ item.current_stock = 0 ∧ item.current_stock ≤ CRITICAL_STOCK_THRESHOLD)
    ∧ (item.stock_status = .low
        ↔ CRITICAL_STOCK_THRESHOLD < item.current_stock ∧ item.current_stock ≤ item.min_stock)
    ∧ (item.stock_status = .overstocked
        ↔ CRITICAL_STOCK_THRESHOLD < item.current_stock ∧ item.min_stock < item.current_stock
          ∧ item.max_stock ≤ item.current_stock)
    ∧ (item.stock_status = .normal
        ↔ CRITICAL_STOCK_THRESHOLD < item.current_stock ∧ item.min_stock < item.current_stock
          ∧ item.current_stock < item.max_stock)
    ∧ (mkInventoryItem "RC_1.0KG" "Roasted Chana 1.0kg" 1 45 0 50 200 100
        "Main Warehouse" "" none 0).toOption.map InventoryItem.stock_status = some .low
    ∧ (mkInventoryItem "RC_1.0KG" "Roasted Chana 1.0kg" 1 45 0 50 200 100
        "Main Warehouse" "" none 0).toOption.map InventoryItem.reorder_quantity = some 155 := by
  refine ⟨?_, ?_, ?_, ?_, ?_, by decide, by decide⟩
  all_goals
    simp only [InventoryItem.stock_status, CRITICAL_STOCK_THRESHOLD]
    split_ifs with h1 h2 h3 h4 <;> simp <;> omega

/-- Witness for C2 at the Scenario A stock level. -/
theorem stock_status_classification_witness :
    (CRITICAL_STOCK_THRESHOLD < item45.current_stock
      ∧ item45.current_stock ≤ item45.min_stock)
    ∧ item45.stock_status = StockStatus.low := by
  have h := stock_status_classification item45
  exact ⟨⟨by decide, by decide⟩, h.2.2.1.mpr ⟨by decide, by decide⟩⟩

/-- Lookup in an insertion-ordered Python dict modelled as an association
list: the first entry whose key matches, if any. -/
def dictFind {α : Type} : List (String × α) → String → Option α
  | [], _ => none
  | kv :: rest, k => if kv.1 = k then some kv.2 else dictFind rest k

/-- In-place mutation of the value stored at a key: Python mutates the object
held in the dict, so the entry keeps its position. -/
def dictSet {α : Type} : List (String × α) → String → α → List (String × α)
  | [], _, _ => []
  | kv :: rest, k, v =>
    if kv.1 = k then (kv.1, v) :: dictSet rest k v else kv :: dictSet rest k v

theorem dictFind_dictSet_self {α : Type} (l : List (String × α)) (k : String) (v : α)
    (h : (dictFind l k).isSome) : dictFind (dictSet l k v) k = some v := by
  induction l with
  | nil => simp [dictFind] at h
  | cons kv rest ih =>
    by_cases hk : kv.1 = k
    · simp [dictFind, dictSet, hk]
    · simp only [dictFind, dictSet, if_neg hk] at h ⊢
      exact ih h

theorem dictFind_dictSet_ne {α : Type} (l : List (String × α)) (k k' : String) (v : α)
    (h : ¬ k' = k) : dictFind (dictSet l k v) k' = dictFind l k' := by
  induction l with
  | nil => rfl
  | cons kv rest ih =>
    by_cases hk : kv.1 = k
    · have hne : ¬ kv.1 = k' := fun he => h (he.symm.trans hk)
      simp only [dictSet, if_pos hk, dictFind, if_neg hne]
      exact ih
    · by_cases hk' : kv.1 = k'
      · simp only [dictSet, if_neg hk, dictFind, if_pos hk']
      · simp only [dictSet, if_neg hk, dictFind, if_neg hk']
        exact ih

/-- Variance entry recorded by `perform_stock_take` (inventory.py lines
325-332). -/
structure VarianceEntry where
  product_id : String
  product_name : String
  system_count : Int
  actual_count : Int
  variance : Int
  variance_percentage : ℚ
  deriving DecidableEq, Repr

/-- Variance entry built for an item whose recorded actual count differs from
the system count; `variance_percentage` degrades to 0 when the system count is
not positive. -/
def mkVarianceEntry (pid : String) (item : InventoryItem) (actual : Int) : VarianceEntry :=
  { product_id := pid, product_name := item.product_name,
    system_count := item.current_stock, actual_count := actual,
    variance := actual - item.current_stock,
    variance_percentage :=
      if 0 < item.current_stock then
        ((actual - item.current_stock : Int) : ℚ) / (item.current_stock : ℚ) * 100
      else 0 }

/-- Aggregate result returned by `perform_stock_take` (inventory.py lines
338-344); the stock-take date string is omitted. -/
structure StockTakeResult where
  total_items_counted : Nat
  variances_found : Nat
  adjustments_made : Nat
  variance_details : List VarianceEntry
  deriving DecidableEq, Repr

/-- Loop body of `perform_stock_take` (inventory.py lines 318-336): walk the
actual counts in order; for each known product whose count differs, record the
variance entry and then call `set_stock_level` (whose boolean result is
ignored) and count an adjustment. -/
def stockTakeGo (now : Int) : List (String × Int) → List (String × InventoryItem) →
    List (String × InventoryItem) × List VarianceEntry × Nat
  | [], items => (items, [], 0)
  | (pid, actual) :: rest, items =>
    match dictFind items pid with
    | none => stockTakeGo now rest items
    | some item =>
      if actual - item.current_stock = 0 then stockTakeGo now rest items
      else
        ((stockTakeGo now rest (dictSet items pid (item.set_stock_level actual now).1)).1,
         mkVarianceEntry pid item actual
           :: (stockTakeGo now rest (dictSet items pid (item.set_stock_level actual now).1)).2.1,
         (stockTakeGo now rest (dictSet items pid (item.set_stock_level actual now).1)).2.2 + 1)

/-- Stock take over a map of actual counts (inventory.py lines 313-344),
returning the mutated inventory and the aggregate result. -/
def perform_stock_take (items : List (String × InventoryItem))
    (actual_counts : List (String × Int)) (now : Int) :
    List (String × InventoryItem) × StockTakeResult :=
  let r := stockTakeGo now actual_counts items
  (r.1, { total_items_counted := actual_counts.length, variances_found := r.2.1.length,
          adjustments_made := r.2.2, variance_details := r.2.1 })

theorem stockTakeGo_adjustments (now : Int) (counts : List (String × Int))
    (items : List (String × InventoryItem)) :
    (stockTakeGo now counts items).2.2 = (stockTakeGo now counts items).2.1.length := by
  induction counts generalizing items with
  | nil => rfl
  | cons pc rest ih =>
    obtain ⟨pid, actual⟩ := pc
    simp only [stockTakeGo]
    cases hf : dictFind items pid with
    | none => exact ih items
    | some item =>
      simp only
      split
      · exact ih items
      · simp [ih]

theorem stockTakeGo_find_of_not_mem (now : Int) (counts : List (String × Int))
    (items : List (String × InventoryItem)) (pid : String)
    (h : pid ∉ counts.map Prod.fst) :
    dictFind (stockTakeGo now counts items).1 pid = dictFind items pid := by
  induction counts generalizing items with
  | nil => rfl
  | cons pc rest ih =>
    obtain ⟨p, actual⟩ := pc
    simp only [List.map_cons, List.mem_cons, not_or] at h
    simp only [stockTakeGo]
    cases hf : dictFind items p with
    | none => exact ih items h.2
    | some item =>
      simp only
      split
      · exact ih items h.2
      · rw [ih _ h.2, dictFind_dictSet_ne _ _ _ _ h.1]

theorem stockTakeGo_spec (now : Int) (counts : List (String × Int))
    (items : List (String × InventoryItem))
    (hnodup : (counts.map Prod.fst).Nodup) (hnn : ∀ pc ∈ counts, 0 ≤ pc.2)
    (pid : String) (actual : Int) (item : InventoryItem)
    (hmem : (pid, actual) ∈ counts) (hfind : dictFind items pid = some item) :
    (dictFind (stockTakeGo now counts items).1 pid).map InventoryItem.current_stock = some actual
    ∧ (¬ actual = item.current_stock →
        mkVarianceEntry pid item actual ∈ (stockTakeGo now counts items).2.1) := by
  induction counts generalizing items with
  | nil => cases hmem
  | cons pc rest ih =>
    obtain ⟨p, a⟩ := pc
    simp only [List.map_cons, List.nodup_cons] at hnodup
    rcases List.mem_cons.mp hmem with hhead | htail
    · obtain ⟨hp, ha⟩ := Prod.mk.injEq .. ▸ hhead
      subst hp; subst ha
      simp only [stockTakeGo, hfind]
      by_cases hvar : actual - item.current_stock = 0
      · rw [if_pos hvar]
        refine ⟨?_, fun hne => absurd (by omega : actual = item.current_stock) hne⟩
        rw [stockTakeGo_find_of_not_mem now rest items pid hnodup.1, hfind]
        have hs : item.current_stock = actual := by omega
        simp [hs]
      · rw [if_neg hvar]
        have hnn0 : 0 ≤ actual := hnn (pid, actual) hmem
        have hset : (item.set_stock_level actual now).1
            = { item with current_stock := actual, last_updated := now } := by
          rw [InventoryItem.set_stock_level, if_neg (by omega)]
        constructor
        · simp only
          rw [stockTakeGo_find_of_not_mem now rest _ pid hnodup.1,
            dictFind_dictSet_self _ _ _ (by simp [hfind]), hset]
          rfl
        · intro _
          simp
    · have hpne : ¬ pid = p := by
        intro he
        exact hnodup.1 (he ▸ List.mem_map_of_mem Prod.fst htail)
      simp only [stockTakeGo]
      cases hf : dictFind items p with
      | none => exact ih items hnodup.2 (fun pc hpc => hnn pc (List.mem_cons_of_mem _ hpc)) htail hfind
      | some itemp =>
        simp only
        split
        · exact ih items hnodup.2 (fun pc hpc => hnn pc (List.mem_cons_of_mem _ hpc)) htail hfind
        · have hfind2 : dictFind (dictSet items p (itemp.set_stock_level a now).1) pid = some item := by
            rw [dictFind_dictSet_ne _ _ _ _ hpne]; exact hfind
          have hrec := ih (dictSet items p (itemp.set_stock_level a now).1) hnodup.2
            (fun pc hpc => hnn pc (List.mem_cons_of_mem _ hpc)) htail hfind2
          exact ⟨hrec.1, fun hne => List.mem_cons_of_mem _ (hrec.2 hne)⟩

/-- Concrete item with system stock 85 (Scenario D shape). -/
def item85 : InventoryItem :=
  { product_id := "RC_1.0KG", product_name := "Roasted Chana 1.0kg", weight_kg := 1,
    current_stock := 85, opening_stock := 100, min_stock := 10, max_stock := 1000,
    unit_price := 100, location := "Main Warehouse", batch_number := "",
    expiry_date := none, last_updated := 0 }

/-- One-item inventory holding `item85`. -/
def inv85 : List (String × InventoryItem) := [("RC_1.0KG", item85)]

/-- All recorded actual counts are non-negative. -/
def nonnegCounts (counts : List (String × Int)) : Bool :=
  counts.all (fun pc => decide (0 ≤ pc.2))

/-- Claim C5 counterexample: the claim promises that the system stock is
overwritten to the recorded actual count for every known differing count, but
with actual count -1 against system stock 85 the ignored boolean of
`set_stock_level` is false and the stock stays 85, while an adjustment is
still counted. -/
theorem perform_stock_take_neg_count :
    (dictFind (perform_stock_take inv85 [("RC_1.0KG", -1)] 7).1 "RC_1.0KG").map
        InventoryItem.current_stock = some 85
    ∧ ¬ (85 : Int) = -1
    ∧ (perform_stock_take inv85 [("RC_1.0KG", -1)] 7).2.adjustments_made = 1 := by
  decide

/-- Claim C5 (amended to non-negative actual counts): for distinct product ids
with non-negative actual counts, perform_stock_take records, for each known
product whose actual count differs from the system count, the variance entry
built from the pre-mutation system count, and overwrites the system stock to
the actual count; total_items_counted is the number of recorded counts, and
variances_found and adjustments_made both equal the number of variance
entries.  Scenario D: actual 80 against system 85 records variance -5 with
variance_percentage -100/17 ≈ -5.88 and sets the stock to 80. -/
theorem perform_stock_take_spec (items : List (String × InventoryItem))
    (counts : List (String × Int)) (now : Int)
    (hnodup : (counts.map Prod.fst).Nodup) (hnn : nonnegCounts counts = true) :
    (perform_stock_take items counts now).2.total_items_counted = counts.length
    ∧ (perform_stock_take items counts now).2.variances_found
        = (perform_stock_take items counts now).2.variance_details.length
    ∧ (perform_stock_take items counts now).2.adjustments_made
        = (perform_stock_take items counts now).2.variance_details.length
    ∧ (∀ pid actual item, (pid, actual) ∈ counts → dictFind items pid = some item →
        (dictFind (perform_stock_take items counts now).1 pid).map InventoryItem.current_stock
            = some actual
        ∧ (¬ actual = item.current_stock →
            mkVarianceEntry pid item actual
              ∈ (perform_stock_take items counts now).2.variance_details))
    ∧ (perform_stock_take inv85 [("RC_1.0KG", 80)] 7).2.variance_details
        = [mkVarianceEntry "RC_1.0KG" item85 80]
    ∧ (mkVarianceEntry "RC_1.0KG" item85 80).variance = -5
    ∧ (mkVarianceEntry "RC_1.0KG" item85 80).variance_percentage = -100 / 17
    ∧ (dictFind (perform_stock_take inv85 [("RC_1.0KG", 80)] 7).1 "RC_1.0KG").map
        InventoryItem.current_stock = some 80 := by
  have hnn' : ∀ pc ∈ counts, 0 ≤ pc.2 := by
    intro pc hpc
    have := List.all_eq_true.mp hnn pc hpc
    simpa using this
  refine ⟨rfl, rfl, ?_, ?_, by rfl, by decide,
    by simp only [mkVarianceEntry, item85]; norm_num, by decide⟩
  · exact stockTakeGo_adjustments now counts items
  · intro pid actual item hmem hfind
    exact stockTakeGo_spec now counts items hnodup hnn' pid actual item hmem hfind

/-- Witness for C5 at the Scenario D input. -/
theorem perform_stock_take_spec_witness :
    (([("RC_1.0KG", (80 : Int))].map Prod.fst).Nodup
      ∧ nonnegCounts [("RC_1.0KG", (80 : Int))] = true
      ∧ dictFind inv85 "RC_1.0KG" = some item85
      ∧ ¬ (80 : Int) = item85.current_stock)
    ∧ (perform_stock_take inv85 [("RC_1.0KG", 80)] 7).2.total_items_counted = 1
    ∧ (dictFind (perform_stock_take inv85 [("RC_1.0KG", 80)] 7).1 "RC_1.0KG").map
        InventoryItem.current_stock = some 80
    ∧ mkVarianceEntry "RC_1.0KG" item85 80
        ∈ (perform_stock_take inv85 [("RC_1.0KG", 80)] 7).2.variance_details := by
  have h := perform_stock_take_spec inv85 [("RC_1.0KG", 80)] 7 (by decide) (by decide)
  have h4 := h.2.2.2.1 "RC_1.0KG" 80 item85 (by decide) (by rfl)
  exact ⟨⟨by decide, by decide, by rfl, by decide⟩, h.1, h4.1, h4.2 (by decide)⟩

/-- Membership test of `get_reorder_recommendations` (inventory.py line 252):
status in [LOW, CRITICAL, OUT_OF_STOCK]. -/
def needsReorder (s : StockStatus) : Bool :=
  s = StockStatus.low ∨ s = StockStatus.critical ∨ s = StockStatus.out_of_stock

/-- Urgency string computed at inventory.py lines 253-255: "Critical" for
CRITICAL, "High" otherwise, overridden to "Emergency" for OUT_OF_STOCK. -/
def urgencyOf (s : StockStatus) : String :=
  let u := if s = StockStatus.critical then "Critical" else "High"
  if s = StockStatus.out_of_stock then "Emergency" else u

/-- Recommendation entry built at inventory.py lines 257-265. -/
structure Recommendation where
  product_id : String
  product_name : String
  current_stock : Int
  min_stock : Int
  recommended_quantity : Int
  urgency : String
  status_value : String
  deriving DecidableEq, Repr

/-- Recommendation entry for one qualifying item. -/
def mkRecommendation (item : InventoryItem) : Recommendation :=
  { product_id := item.product_id, product_name := item.product_name,
    current_stock := item.current_stock, min_stock := item.min_stock,
    recommended_quantity := item.reorder_quantity,
    urgency := urgencyOf item.stock_status,
    status_value := item.stock_status.value }

/-- Sort key lookup `urgency_order.get(urgency, 3)` with
urgency_order = dict Emergency 0, Critical 1, High 2 (inventory.py line 268). -/
def urgency_order (u : String) : Nat :=
  if u = "Emergency" then 0 else if u = "Critical" then 1 else if u = "High" then 2 else 3

/-- Comparison used for the recommendation sort: ascending urgency rank. -/
def recRel (a b : Recommendation) : Prop :=
  urgency_order a.urgency ≤ urgency_order b.urgency

instance : DecidableRel recRel :=
  fun a b => Nat.decLe (urgency_order a.urgency) (urgency_order b.urgency)

/-- Reorder recommendations (inventory.py lines 247-271): filter the items in
dict order to those with status LOW/CRITICAL/OUT_OF_STOCK, build an entry for
each, and stably sort by urgency rank.  Python's list.sort is stable; a stable
sort's output is uniquely determined by the comparison and the input order, so
it is embedded by insertion sort, which is stable for `recRel`. -/
def get_reorder_recommendations (items : List InventoryItem) : List Recommendation :=
  ((items.filter (fun it => needsReorder it.stock_status)).map mkRecommendation).insertionSort
    recRel

/-- Concrete out-of-stock item for Scenario E. -/
def itemOOS : InventoryItem :=
  { product_id := "RC_0.5KG", product_name := "Roasted Chana 0.5kg", weight_kg := 1/2,
    current_stock := 0, opening_stock := 100, min_stock := 10, max_stock := 1000,
    unit_price := 50, location := "Main Warehouse", batch_number := "",
    expiry_date := none, last_updated := 0 }

/-- Concrete critical item for Scenario E (0 < stock 3 ≤ threshold 5). -/
def itemCrit : InventoryItem :=
  { product_id := "RC_2.0KG", product_name := "Roasted Chana 2.0kg", weight_kg := 2,
    current_stock := 3, opening_stock := 100, min_stock := 10, max_stock := 1000,
    unit_price := 200, location := "Main Warehouse", batch_number := "",
    expiry_date := none, last_updated := 0 }

/-- Claim C6: the recommendations are exactly one entry per item with status
LOW/CRITICAL/OUT_OF_STOCK (a permutation of the filtered, mapped item list),
the urgency map is OUT_OF_STOCK to Emergency, CRITICAL to Critical, LOW to
High, the result is sorted by urgency rank Emergency < Critical < High, the
sort is stable (rank-respecting pairs of the filtered list stay in order), and
Scenario E: items with statuses LOW, OUT_OF_STOCK, CRITICAL come back ordered
Emergency, Critical, High. -/
theorem reorder_recommendations_spec (items : List InventoryItem) :
    (get_reorder_recommendations items).Perm
        ((items.filter (fun it => needsReorder it.stock_status)).map mkRecommendation)
    ∧ (get_reorder_recommendations items).Pairwise recRel
    ∧ (∀ a b,
        [a, b].Sublist ((items.filter (fun it => needsReorder it.stock_status)).map
          mkRecommendation) →
        recRel a b → [a, b].Sublist (get_reorder_recommendations items))
    ∧ urgencyOf StockStatus.out_of_stock = "Emergency"
    ∧ urgencyOf StockStatus.critical = "Critical"
    ∧ urgencyOf StockStatus.low = "High"
    ∧ urgency_order "Emergency" < urgency_order "Critical"
    ∧ urgency_order "Critical" < urgency_order "High"
    ∧ (get_reorder_recommendations [item45, itemOOS, itemCrit]).map Recommendation.urgency
        = ["Emergency", "Critical", "High"] := by
  letI : IsTotal Recommendation recRel := ⟨fun a b => Nat.le_total _ _⟩
  letI : IsTrans Recommendation recRel := ⟨fun a b c hab hbc => Nat.le_trans hab hbc⟩
  refine ⟨List.perm_insertionSort recRel _, List.sorted_insertionSort recRel _,
    ?_, by decide, by decide, by decide, by decide, by decide, by decide⟩
  intro a b hsub hab
  exact List.pair_sublist_insertionSort hab hsub

/-- Witness for C6 at the Scenario E inventory. -/
theorem reorder_recommendations_spec_witness :
    ([mkRecommendation itemOOS, mkRecommendation itemCrit].Sublist
        (([item45, itemOOS, itemCrit].filter (fun it => needsReorder it.stock_status)).map
          mkRecommendation)
      ∧ recRel (mkRecommendation itemOOS) (mkRecommendation itemCrit))
    ∧ (get_reorder_recommendations [item45, itemOOS, itemCrit]).map Recommendation.urgency
        = ["Emergency", "Critical", "High"]
    ∧ [mkRecommendation itemOOS, mkRecommendation itemCrit].Sublist
        (get_reorder_recommendations [item45, itemOOS, itemCrit]) := by
  have h := reorder_recommendations_spec [item45, itemOOS, itemCrit]
  exact ⟨⟨by decide, by decide⟩, h.2.2.2.2.2.2.2.2,
    h.2.2.1 (mkRecommendation itemOOS) (mkRecommendation itemCrit) (by decide) (by decide)⟩

/-- Transaction type enumeration (transaction.py lines 11-18); `ret` stands
for the RETURN member. -/
inductive TransactionType where
  | sale
  | purchase
  | production
  | ret
  | adjustment
  | transfer
  deriving DecidableEq, Repr

/-- Transaction status enumeration (transaction.py lines 20-25). -/
inductive TransactionStatus where
  | pending
  | completed
  | cancelled
  | refunded
  deriving DecidableEq, Repr

/-- Common fields of the base Transaction dataclass (transaction.py lines
27-39); dates and datetimes are day ordinals / timestamps. -/
structure Transaction where
  transaction_id : String
  transaction_type : TransactionType
  transaction_date : Int
  status : TransactionStatus
  reference_number : String
  notes : String
  created_by : String
  created_date : Int
  updated_date : Int
  deriving DecidableEq, Repr

/-- Base `__post_init__` (transaction.py lines 41-44): an empty (falsy)
transaction_id is replaced by a fresh uuid4 string, supplied here as `uuid`;
nothing else is checked. -/
def Transaction.post_init (uuid : String) (t : Transaction) : Transaction :=
  if t.transaction_id = "" then { t with transaction_id := uuid } else t

/-- Status transition `mark_completed` (transaction.py lines 46-49). -/
def Transaction.mark_completed (t : Transaction) (now : Int) : Transaction :=
  { t with status := TransactionStatus.completed, updated_date := now }

/-- Status transition `mark_cancelled` (transaction.py lines 51-54). -/
def Transaction.mark_cancelled (t : Transaction) (now : Int) : Transaction :=
  { t with status := TransactionStatus.cancelled, updated_date := now }

/-- Sale-specific fields of SaleTransaction (transaction.py lines 70-85). -/
structure SaleTransaction where
  base : Transaction
  product_id : String
  product_name : String
  quantity : Int
  unit_price : ℚ
  total_amount : ℚ
  sales_channel : String
  order_id : String
  customer_name : String
  customer_address : String
  shipping_cost : ℚ
  tax_amount : ℚ
  discount_amount : ℚ
  deriving DecidableEq, Repr

/-- SaleTransaction construction: dataclass field assignment followed by
`__post_init__` (transaction.py lines 87-93), which never fails: it forces the
SALE type tag, fills an empty id, and computes the total when it is 0 and
quantity and unit price are positive.  No field is validated. -/
def mkSaleTransaction (uuid : String) (base : Transaction) (product_id product_name : String)
    (quantity : Int) (unit_price total_amount : ℚ)
    (sales_channel order_id customer_name customer_address : String)
    (shipping_cost tax_amount discount_amount : ℚ) : SaleTransaction :=
  let b := Transaction.post_init uuid { base with transaction_type := TransactionType.sale }
  let s : SaleTransaction :=
    { base := b, product_id := product_id, product_name := product_name, quantity := quantity,
      unit_price := unit_price, total_amount := total_amount, sales_channel := sales_channel,
      order_id := order_id, customer_name := customer_name, customer_address := customer_address,
      shipping_cost := shipping_cost, tax_amount := tax_amount,
      discount_amount := discount_amount }
  if s.total_amount = 0 ∧ 0 < s.quantity ∧ 0 < s.unit_price then
    { s with total_amount :=
        (s.quantity : ℚ) * s.unit_price + s.shipping_cost + s.tax_amount - s.discount_amount }
  else s

/-- Purchase-specific fields of PurchaseTransaction (transaction.py lines
128-142). -/
structure PurchaseTransaction where
  base : Transaction
  supplier_name : String
  supplier_contact : String
  material_type : String
  quantity_kg : ℚ
  rate_per_kg : ℚ
  total_amount : ℚ
  invoice_number : String
  delivery_date : Option Int
  quality_grade : String
  payment_method : String
  payment_status : String
  deriving DecidableEq, Repr

/-- PurchaseTransaction construction with its `__post_init__` (transaction.py
lines 144-150): never fails, forces the PURCHASE tag, computes the total when
it is 0 and quantity and rate are positive.  No field is validated. -/
def mkPurchaseTransaction (uuid : String) (base : Transaction)
    (supplier_name supplier_contact material_type : String)
    (quantity_kg rate_per_kg total_amount : ℚ) (invoice_number : String)
    (delivery_date : Option Int) (quality_grade payment_method payment_status : String) :
    PurchaseTransaction :=
  let b := Transaction.post_init uuid { base with transaction_type := TransactionType.purchase }
  let p : PurchaseTransaction :=
    { base := b, supplier_name := supplier_name, supplier_contact := supplier_contact,
      material_type := material_type, quantity_kg := quantity_kg, rate_per_kg := rate_per_kg,
      total_amount := total_amount, invoice_number := invoice_number,
      delivery_date := delivery_date, quality_grade := quality_grade,
      payment_method := payment_method, payment_status := payment_status }
  if p.total_amount = 0 ∧ 0 < p.quantity_kg ∧ 0 < p.rate_per_kg then
    { p with total_amount := p.quantity_kg * p.rate_per_kg }
  else p

/-- Concrete pending base transaction. -/
def base0 : Transaction :=
  { transaction_id := "T1", transaction_type := TransactionType.sale, transaction_date := 0,
    status := TransactionStatus.pending, reference_number := "", notes := "",
    created_by := "System", created_date := 0, updated_date := 0 }

/-- Sale constructed with quantity 0 and empty product name. -/
def saleZero : SaleTransaction :=
  mkSaleTransaction "u-1" base0 "" "" 0 0 0 "" "" "" "" 0 0 0

/-- Claim C7 counterexample: the claim says constructing a Sale with quantity
0 or empty product_name does not succeed, but the variant constructors
validate nothing: the construction yields a normal PENDING transaction with
the invalid values stored unchanged. -/
theorem sale_construction_not_rejected :
    saleZero.quantity = 0
    ∧ saleZero.product_name = ""
    ∧ saleZero.base.status = TransactionStatus.pending
    ∧ saleZero.base.transaction_id = "T1" := by
  decide

/-- Claim C7 (amended): constructing a Sale or Purchase variant never fails
and performs no invariant validation; `__post_init__` only fills an empty
transaction_id, forces the variant type tag, and computes the defaulted
total_amount (when it is 0 and the quantity and price are positive); all other
fields, including a zero quantity or an empty product name, are stored
unchanged. -/
theorem transaction_construction_spec (uuid : String) (base : Transaction)
    (product_id product_name : String) (quantity : Int) (unit_price total_amount : ℚ)
    (sales_channel order_id customer_name customer_address : String)
    (shipping_cost tax_amount discount_amount : ℚ)
    (supplier_name supplier_contact material_type : String)
    (quantity_kg rate_per_kg ptotal : ℚ) (invoice_number : String)
    (delivery_date : Option Int) (quality_grade payment_method payment_status : String)
    (s : SaleTransaction) (p : PurchaseTransaction)
    (hs : s = mkSaleTransaction uuid base product_id product_name quantity unit_price
      total_amount sales_channel order_id customer_name customer_address shipping_cost
      tax_amount discount_amount)
    (hp : p = mkPurchaseTransaction uuid base supplier_name supplier_contact material_type
      quantity_kg rate_per_kg ptotal invoice_number delivery_date quality_grade
      payment_method payment_status) :
    s.quantity = quantity
    ∧ s.product_name = product_name
    ∧ s.base.transaction_type = TransactionType.sale
    ∧ s.base.status = base.status
    ∧ (¬ total_amount = 0 → s.total_amount = total_amount)
    ∧ (total_amount = 0 → 0 < quantity → 0 < unit_price →
        s.total_amount = (quantity : ℚ) * unit_price + shipping_cost + tax_amount
          - discount_amount)
    ∧ p.quantity_kg = quantity_kg
    ∧ p.supplier_name = supplier_name
    ∧ p.base.transaction_type = TransactionType.purchase
    ∧ (¬ ptotal = 0 → p.total_amount = ptotal)
    ∧ (ptotal = 0 → 0 < quantity_kg → 0 < rate_per_kg →
        p.total_amount = quantity_kg * rate_per_kg) := by
  subst hs hp
  simp only [mkSaleTransaction, mkPurchaseTransaction, Transaction.post_init]
  split_ifs with h1 h2 h3 h4 h5 h6 h7 <;>
    refine ⟨rfl, rfl, rfl, rfl, ?_, ?_, rfl, rfl, rfl, ?_, ?_⟩ <;>
    intros <;>
    first
      | rfl
      | (exfalso; tauto)

/-- Witness for C7: a sale whose total 500 is given (and kept), and a purchase
whose total is defaulted to quantity times rate. -/
theorem transaction_construction_spec_witness :
    (mkSaleTransaction "u-1" base0 "1.0kg" "Roasted Chana 1.0kg" 5 100 500 "Retail" ""
        "" "" 0 0 0
      = mkSaleTransaction "u-1" base0 "1.0kg" "Roasted Chana 1.0kg" 5 100 500 "Retail" ""
        "" "" 0 0 0
      ∧ ¬ (500 : ℚ) = 0 ∧ (0 : ℚ) = 0 ∧ (0 : ℚ) < 40 ∧ (0 : ℚ) < 52)
    ∧ (mkSaleTransaction "u-1" base0 "1.0kg" "Roasted Chana 1.0kg" 5 100 500 "Retail" ""
        "" "" 0 0 0).quantity = 5
    ∧ (mkSaleTransaction "u-1" base0 "1.0kg" "Roasted Chana 1.0kg" 5 100 500 "Retail" ""
        "" "" 0 0 0).total_amount = 500
    ∧ (mkPurchaseTransaction "u-2" base0 "Agro Traders" "" "Raw Chana" 40 52 0 "INV-1"
        none "" "" "Pending").total_amount = 40 * 52 := by
  have h := transaction_construction_spec "u-1" base0 "1.0kg" "Roasted Chana 1.0kg" 5 100 500
    "Retail" "" "" "" 0 0 0 "Agro Traders" "" "Raw Chana" 40 52 0 "INV-1" none "" "" "Pending"
    (mkSaleTransaction "u-1" base0 "1.0kg" "Roasted Chana 1.0kg" 5 100 500 "Retail" ""
      "" "" 0 0 0)
    (mkPurchaseTransaction "u-2" base0 "Agro Traders" "" "Raw Chana" 40 52 0 "INV-1"
      none "" "" "Pending") rfl rfl
  exact ⟨⟨rfl, by norm_num, rfl, by norm_num, by norm_num⟩, h.1,
    h.2.2.2.2.1 (by norm_num), h.2.2.2.2.2.2.2.2.2.2 rfl (by norm_num) (by norm_num)⟩

/-- One `setattr(transaction, key, value)` step of the update loop of
`TransactionManager.update_transaction` (transaction.py lines 316-318), for
the base Transaction fields; `hasattr` is true for each of these keys, so the
assignment always happens. -/
inductive TUpdate where
  | set_transaction_id (v : String)
  | set_transaction_type (v : TransactionType)
  | set_transaction_date (v : Int)
  | set_status (v : TransactionStatus)
  | set_reference_number (v : String)
  | set_notes (v : String)
  | set_created_by (v : String)
  | set_created_date (v : Int)
  | set_updated_date (v : Int)
  deriving DecidableEq, Repr

/-- Field assignment performed by one update entry. -/
def applyTUpdate (t : Transaction) : TUpdate → Transaction
  | .set_transaction_id v => { t with transaction_id := v }
  | .set_transaction_type v => { t with transaction_type := v }
  | .set_transaction_date v => { t with transaction_date := v }
  | .set_status v => { t with status := v }
  | .set_reference_number v => { t with reference_number := v }
  | .set_notes v => { t with notes := v }
  | .set_created_by v => { t with created_by := v }
  | .set_created_date v => { t with created_date := v }
  | .set_updated_date v => { t with updated_date := v }

/-- Manager registration `add_transaction` (transaction.py lines 297-303):
fails on an id collision, otherwise stores the transaction keyed by id. -/
def add_transaction (mgr : List (String × Transaction)) (t : Transaction) :
    List (String × Transaction) × Bool :=
  if (dictFind mgr t.transaction_id).isSome then (mgr, false)
  else (mgr ++ [(t.transaction_id, t)], true)

/-- Manager update `update_transaction` (transaction.py lines 309-321): if the
id is held, apply every update via setattr regardless of the transaction's
status, stamp updated_date, and return true. -/
def update_transaction (mgr : List (String × Transaction)) (tid : String)
    (updates : List TUpdate) (now : Int) : List (String × Transaction) × Bool :=
  match dictFind mgr tid with
  | none => (mgr, false)
  | some t =>
    (dictSet mgr tid { updates.foldl applyTUpdate t with updated_date := now }, true)

/-- Concrete COMPLETED transaction held by the manager. -/
def completedSale : Transaction :=
  { transaction_id := "T1", transaction_type := TransactionType.sale, transaction_date := 0,
    status := TransactionStatus.completed, reference_number := "", notes := "original",
    created_by := "System", created_date := 0, updated_date := 0 }

/-- Manager holding only `completedSale`. -/
def mgr0 : List (String × Transaction) := [("T1", completedSale)]

/-- Claim C8 counterexample: for a COMPLETED transaction held by the manager,
update_transaction changes a non-status field: updating notes of the COMPLETED
transaction T1 succeeds and overwrites the notes. -/
theorem update_transaction_mutates_completed :
    completedSale.status = TransactionStatus.completed
    ∧ (update_transaction mgr0 "T1" [TUpdate.set_notes "changed"] 99).2 = true
    ∧ (dictFind (update_transaction mgr0 "T1" [TUpdate.set_notes "changed"] 99).1 "T1").map
        Transaction.notes = some "changed"
    ∧ ¬ "changed" = "original" := by
  decide

/-- Claim C8 (amended): the manager enforces no immutability: for a COMPLETED
transaction held under tid, update_transaction succeeds and stores the result
of applying every given field update (status checked nowhere) with
updated_date stamped; mark_completed and mark_cancelled do change only status
and updated_date. -/
theorem update_transaction_spec (mgr : List (String × Transaction)) (tid : String)
    (updates : List TUpdate) (now : Int) (t : Transaction)
    (hfind : dictFind mgr tid = some t) (_hc : t.status = TransactionStatus.completed) :
    (update_transaction mgr tid updates now).2 = true
    ∧ dictFind (update_transaction mgr tid updates now).1 tid
        = some { updates.foldl applyTUpdate t with updated_date := now }
    ∧ (∀ t2 now2, (Transaction.mark_completed t2 now2).transaction_id = t2.transaction_id
        ∧ (Transaction.mark_completed t2 now2).transaction_type = t2.transaction_type
        ∧ (Transaction.mark_completed t2 now2).transaction_date = t2.transaction_date
        ∧ (Transaction.mark_completed t2 now2).reference_number = t2.reference_number
        ∧ (Transaction.mark_completed t2 now2).notes = t2.notes
        ∧ (Transaction.mark_completed t2 now2).created_by = t2.created_by
        ∧ (Transaction.mark_completed t2 now2).created_date = t2.created_date
        ∧ (Transaction.mark_completed t2 now2).status = TransactionStatus.completed
        ∧ (Transaction.mark_cancelled t2 now2).status = TransactionStatus.cancelled
        ∧ (Transaction.mark_cancelled t2 now2).notes = t2.notes) := by
  refine ⟨?_, ?_, ?_⟩
  · simp [update_transaction, hfind]
  · simp only [update_transaction, hfind]
    exact dictFind_dictSet_self mgr tid _ (by simp [hfind])
  · intro t2 now2
    exact ⟨rfl, rfl, rfl, rfl, rfl, rfl, rfl, rfl, rfl, rfl⟩

/-- Witness for C8 at the concrete manager. -/
theorem update_transaction_spec_witness :
    (dictFind mgr0 "T1" = some completedSale
      ∧ completedSale.status = TransactionStatus.completed)
    ∧ (update_transaction mgr0 "T1" [TUpdate.set_notes "changed"] 99).2 = true
    ∧ dictFind (update_transaction mgr0 "T1" [TUpdate.set_notes "changed"] 99).1 "T1"
        = some { [TUpdate.set_notes "changed"].foldl applyTUpdate completedSale with
                   updated_date := 99 }
    ∧ (Transaction.mark_completed completedSale 5).notes = completedSale.notes := by
  have h := update_transaction_spec mgr0 "T1" [TUpdate.set_notes "changed"] 99 completedSale
    (by decide) (by decide)
  exact ⟨⟨by decide, by decide⟩, h.1, h.2.1, (h.2.2 completedSale 5).2.2.2.2.1⟩

/-- Revenue of one product from the sales history:
`sales_data[sales_data['product'] == product]['total_amount'].sum()`
(stock_calculator.py line 203). -/
def revenue_of (sales : List (String × ℚ)) (p : String) : ℚ :=
  ((sales.filter (fun s => s.1 = p)).map Prod.snd).sum

/-- Per-product revenue dict built at stock_calculator.py lines 196-208, in
stock-row order.  Python keys it by product name, so duplicate names collapse
to one entry (with the same revenue value); the theorem below therefore
assumes distinct product names. -/
def product_revenue (stock_products : List String) (sales : List (String × ℚ)) :
    List (String × ℚ) :=
  stock_products.map (fun p => (p, revenue_of sales p))

/-- Ordering of `sorted(..., key=lambda x: x[1], reverse=True)`
(stock_calculator.py line 211): descending revenue; ties keep insertion order
(Python's sorted is stable). -/
def revRel (a b : String × ℚ) : Prop := b.2 ≤ a.2

instance : DecidableRel revRel :=
  fun a b => inferInstanceAs (Decidable (b.2 ≤ a.2))

/-- ABC category from the cumulative revenue percentage (stock_calculator.py
lines 223-228). -/
def abcCategory (pct : ℚ) : String :=
  if pct ≤ 80 then "A" else if pct ≤ 95 then "B" else "C"

/-- One row of the ABC analysis result (stock_calculator.py lines 230-236). -/
structure ABCEntry where
  product : String
  category : String
  revenue : ℚ
  revenue_percentage : ℚ
  cumulative_percentage : ℚ
  rank : Nat
  deriving DecidableEq, Repr

/-- Classification loop (stock_calculator.py lines 216-236): walk the sorted
products accumulating revenue; percentages degrade to 0 when total revenue is
not positive. -/
def abcGo (total : ℚ) : List (String × ℚ) → ℚ → Nat → List ABCEntry
  | [], _, _ => []
  | pr :: rest, cum, i =>
    { product := pr.1,
      category := abcCategory (if 0 < total then (cum + pr.2) / total * 100 else 0),
      revenue := pr.2,
      revenue_percentage := if 0 < total then pr.2 / total * 100 else 0,
      cumulative_percentage := if 0 < total then (cum + pr.2) / total * 100 else 0,
      rank := i + 1 } :: abcGo total rest (cum + pr.2) (i + 1)

/-- ABC analysis (stock_calculator.py lines 189-238): revenue per stock
product, stable descending sort by revenue, then cumulative classification.
Python's stable sort is embedded by insertion sort (a stable sort's output is
uniquely determined); the resulting dict preserves the sorted insertion
order. -/
def calculate_abc_analysis (stock_products : List String) (sales : List (String × ℚ)) :
    List ABCEntry :=
  abcGo ((product_revenue stock_products sales).map Prod.snd).sum
    ((product_revenue stock_products sales).insertionSort revRel) 0 0

theorem abcCategory_spec (q : ℚ) :
    (abcCategory q = "A" ↔ q ≤ 80)
    ∧ (abcCategory q = "B" ↔ 80 < q ∧ q ≤ 95)
    ∧ (abcCategory q = "C" ↔ 95 < q) := by
  unfold abcCategory
  split_ifs with h1 h2
  · refine ⟨by simp [h1], ?_, ?_⟩
    · constructor
      · intro h; exact absurd h (by decide)
      · rintro ⟨ha, _⟩; linarith
    · constructor
      · intro h; exact absurd h (by decide)
      · intro h; linarith
  · refine ⟨?_, ?_, ?_⟩
    · constructor
      · intro h; exact absurd h (by decide)
      · intro h; exact absurd h h1
    · simp only [true_iff]
      exact ⟨lt_of_not_le h1, h2⟩
    · constructor
      · intro h; exact absurd h (by decide)
      · intro h; linarith
  · refine ⟨?_, ?_, by simp [lt_of_not_le h2]⟩
    · constructor
      · intro h; exact absurd h (by decide)
      · intro h; exact absurd h h1
    · constructor
      · intro h; exact absurd h (by decide)
      · rintro ⟨_, hb⟩; exact absurd hb h2

theorem abcGo_category (total : ℚ) (l : List (String × ℚ)) (cum : ℚ) (i : Nat) :
    ∀ e ∈ abcGo total l cum i, e.category = abcCategory e.cumulative_percentage := by
  induction l generalizing cum i with
  | nil => intro e he; cases he
  | cons pr rest ih =>
    intro e he
    rcases List.mem_cons.mp he with h | h
    · subst h; rfl
    · exact ih (cum + pr.2) (i + 1) e h

theorem abcGo_revenues (total : ℚ) (l : List (String × ℚ)) (cum : ℚ) (i : Nat) :
    (abcGo total l cum i).map ABCEntry.revenue = l.map Prod.snd := by
  induction l generalizing cum i with
  | nil => rfl
  | cons pr rest ih => simp [abcGo, ih]

theorem abcGo_products (total : ℚ) (l : List (String × ℚ)) (cum : ℚ) (i : Nat) :
    (abcGo total l cum i).map ABCEntry.product = l.map Prod.fst := by
  induction l generalizing cum i with
  | nil => rfl
  | cons pr rest ih => simp [abcGo, ih]

/-- Claim C9: ABC analysis ranks products by revenue descending, classifies A
when the cumulative revenue percentage is at most 80, B when at most 95, C
otherwise, and Scenario F: five products with revenue shares 50/20/15/10/5
(cumulative 50, 70, 85, 95, 100) come out A, A, B, B, C.  The distinctness
hypothesis scopes the theorem to inputs where the Python dict keyed by product
name holds one entry per stock row. -/
theorem abc_analysis_spec (stock_products : List String) (sales : List (String × ℚ))
    (_hnodup : stock_products.Nodup) :
    (∀ e ∈ calculate_abc_analysis stock_products sales,
        (e.category = "A" ↔ e.cumulative_percentage ≤ 80)
        ∧ (e.category = "B" ↔ 80 < e.cumulative_percentage ∧ e.cumulative_percentage ≤ 95)
        ∧ (e.category = "C" ↔ 95 < e.cumulative_percentage))
    ∧ ((calculate_abc_analysis stock_products sales).map ABCEntry.revenue).Pairwise
        (fun a b => b ≤ a)
    ∧ ((calculate_abc_analysis stock_products sales).map ABCEntry.product).Perm stock_products
    ∧ (calculate_abc_analysis ["P1", "P2", "P3", "P4", "P5"]
        [("P1", 50), ("P2", 20), ("P3", 15), ("P4", 10), ("P5", 5)]).map ABCEntry.category
      = ["A", "A", "B", "B", "C"]
    ∧ (calculate_abc_analysis ["P1", "P2", "P3", "P4", "P5"]
        [("P1", 50), ("P2", 20), ("P3", 15), ("P4", 10), ("P5", 5)]).map
          ABCEntry.cumulative_percentage
      = [50, 70, 85, 95, 100] := by
  have h1 : product_revenue ["P1", "P2", "P3", "P4", "P5"]
      [("P1", 50), ("P2", 20), ("P3", 15), ("P4", 10), ("P5", 5)]
      = [("P1", 50), ("P2", 20), ("P3", 15), ("P4", 10), ("P5", 5)] := by
    simp [product_revenue, revenue_of]
  have h2 : ([("P1", (50:ℚ)), ("P2", 20), ("P3", 15), ("P4", 10), ("P5", 5)]).insertionSort
      revRel = [("P1", 50), ("P2", 20), ("P3", 15), ("P4", 10), ("P5", 5)] := by
    norm_num [List.insertionSort, List.orderedInsert, revRel]
  have h3 : (([("P1", (50:ℚ)), ("P2", 20), ("P3", 15), ("P4", 10), ("P5", 5)]).map
      Prod.snd).sum = 100 := by
    norm_num
  refine ⟨?_, ?_, ?_, ?_, ?_⟩
  · intro e he
    have hcat := abcGo_category _ _ _ _ e he
    rw [hcat]
    exact abcCategory_spec e.cumulative_percentage
  · letI : IsTotal (String × ℚ) revRel := ⟨fun a b => le_total _ _⟩
    letI : IsTrans (String × ℚ) revRel := ⟨fun a b c hab hbc => le_trans hbc hab⟩
    have hs := List.sorted_insertionSort revRel (product_revenue stock_products sales)
    unfold calculate_abc_analysis
    rw [abcGo_revenues]
    exact List.Pairwise.map Prod.snd (fun a b h => h) hs
  · have hperm := (List.perm_insertionSort revRel (product_revenue stock_products sales)).map
      Prod.fst
    have hfst : (product_revenue stock_products sales).map Prod.fst = stock_products := by
      simp [product_revenue, List.map_map, Function.comp_def]
    rw [hfst] at hperm
    unfold calculate_abc_analysis
    rw [abcGo_products]
    exact hperm
  · rw [calculate_abc_analysis, h1, h2, h3]
    norm_num [abcGo, abcCategory]
  · rw [calculate_abc_analysis, h1, h2, h3]
    norm_num [abcGo, abcCategory]

/-- First entry of the Scenario F analysis. -/
def abcP1 : ABCEntry :=
  { product := "P1", category := "A", revenue := 50, revenue_percentage := 50,
    cumulative_percentage := 50, rank := 1 }

/-- Witness for C9 at the Scenario F input. -/
theorem abc_analysis_spec_witness :
    (["P1", "P2", "P3", "P4", "P5"].Nodup
      ∧ abcP1 ∈ calculate_abc_analysis ["P1", "P2", "P3", "P4", "P5"]
          [("P1", 50), ("P2", 20), ("P3", 15), ("P4", 10), ("P5", 5)])
    ∧ (calculate_abc_analysis ["P1", "P2", "P3", "P4", "P5"]
        [("P1", 50), ("P2", 20), ("P3", 15), ("P4", 10), ("P5", 5)]).map ABCEntry.category
      = ["A", "A", "B", "B", "C"]
    ∧ (abcP1.category = "A" ↔ abcP1.cumulative_percentage ≤ 80) := by
  have h := abc_analysis_spec ["P1", "P2", "P3", "P4", "P5"]
    [("P1", 50), ("P2", 20), ("P3", 15), ("P4", 10), ("P5", 5)] (by decide)
  have hmem : abcP1
      ∈ calculate_abc_analysis ["P1", "P2", "P3", "P4", "P5"]
        [("P1", 50), ("P2", 20), ("P3", 15), ("P4", 10), ("P5", 5)] := by
    have h1 : product_revenue ["P1", "P2", "P3", "P4", "P5"]
        [("P1", 50), ("P2", 20), ("P3", 15), ("P4", 10), ("P5", 5)]
        = [("P1", 50), ("P2", 20), ("P3", 15), ("P4", 10), ("P5", 5)] := by
      simp [product_revenue, revenue_of]
    have h2 : ([("P1", (50:ℚ)), ("P2", 20), ("P3", 15), ("P4", 10), ("P5", 5)]).insertionSort
        revRel = [("P1", 50), ("P2", 20), ("P3", 15), ("P4", 10), ("P5", 5)] := by
      norm_num [List.insertionSort, List.orderedInsert, revRel]
    have h3 : (([("P1", (50:ℚ)), ("P2", 20), ("P3", 15), ("P4", 10), ("P5", 5)]).map
        Prod.snd).sum = 100 := by
      norm_num
    rw [calculate_abc_analysis, h1, h2, h3]
    norm_num [abcGo, abcCategory, abcP1]
  exact ⟨⟨by decide, hmem⟩, h.2.2.2.1, (h.1 _ hmem).1⟩

/-- Python value stored in a sale dict: a string, a number (int or float), or
a date object (day ordinal).  Falsiness follows Python: the empty string and
zero are falsy, date objects are always truthy. -/
inductive PyVal where
  | str (s : String)
  | num (q : ℚ)
  | dateV (d : Int)
  deriving DecidableEq, Repr

/-- Python truth test `not value` used by the required-field loop. -/
def PyVal.falsy : PyVal → Bool
  | .str s => s = ""
  | .num q => q = 0
  | .dateV _ => false

/-- Image of a value inside an f-string error message. -/
def pyDisplay : PyVal → String
  | .str s => s
  | .num q => toString q
  | .dateV d => toString d

/-- Sale dict consumed by validate_sale_data: the five required keys plus the
optional order_id and total_amount; `none` is an absent key. -/
structure SaleData where
  date : Option PyVal
  product : Option PyVal
  quantity : Option PyVal
  price : Option PyVal
  channel : Option PyVal
  order_id : Option PyVal
  total_amount : Option PyVal
  deriving DecidableEq, Repr

/-- Required fields of a sale (data_validation.py line 25), in loop order. -/
inductive ReqField where
  | date
  | product
  | quantity
  | price
  | channel
  deriving DecidableEq, Repr

/-- Key string of each required field. -/
def ReqField.fieldName : ReqField → String
  | .date => "date"
  | .product => "product"
  | .quantity => "quantity"
  | .price => "price"
  | .channel => "channel"

/-- Dict access for each required field. -/
def ReqField.get (f : ReqField) (d : SaleData) : Option PyVal :=
  match f with
  | .date => d.date
  | .product => d.product
  | .quantity => d.quantity
  | .price => d.price
  | .channel => d.channel

/-- Loop order of the required-field check. -/
def requiredFields : List ReqField :=
  [.date, .product, .quantity, .price, .channel]

/-- Condition `field not in sale_data or not sale_data[field]`
(data_validation.py line 27). -/
def missingOrFalsy : Option PyVal → Bool
  | none => true
  | some v => v.falsy

/-- Errors of the required-field loop (data_validation.py lines 24-28). -/
def missingFieldErrors (d : SaleData) : List String :=
  (requiredFields.filter (fun f => missingOrFalsy (f.get d))).map
    (fun f => "Missing required field: " ++ f.fieldName)

/-- Check `_validate_date` (data_validation.py lines 266-279): date objects
compare against today; strings go through the strict "%Y-%m-%d" parser of the
datetime library, supplied as `parseDate`; other values are invalid. -/
def validate_date (parseDate : String → Option Int) (today : Int) : PyVal → Bool
  | .dateV d => decide (d ≤ today)
  | .str s =>
    match parseDate s with
    | some d => decide (d ≤ today)
    | none => false
  | .num _ => false

/-- Valid product strings, the f-string images of config.PRODUCT_WEIGHTS
(config.py line 69). -/
def VALID_PRODUCTS : List String := ["0.2kg", "0.5kg", "1.0kg", "1.5kg", "2.0kg"]

/-- Check `_validate_product` (data_validation.py lines 281-293): the stripped
product string must be one of the configured weight strings. -/
def validate_product : PyVal → Bool
  | .str s => VALID_PRODUCTS.contains s.trim
  | _ => false

/-- Check `_validate_quantity` (data_validation.py lines 295-301):
`float(quantity)` must land in (0, 10000]; numeric strings go through float
parsing (`parseFloat`); dates raise and are invalid. -/
def validate_quantity (parseFloat : String → Option ℚ) : PyVal → Bool
  | .num q => decide (0 < q ∧ q ≤ 10000)
  | .str s =>
    match parseFloat s with
    | some q => decide (0 < q ∧ q ≤ 10000)
    | none => false
  | .dateV _ => false

/-- Check `_validate_price` (data_validation.py lines 312-318): same shape,
bound 10000. -/
def validate_price (parseFloat : String → Option ℚ) : PyVal → Bool
  | .num p => decide (0 < p ∧ p ≤ 10000)
  | .str s =>
    match parseFloat s with
    | some p => decide (0 < p ∧ p ≤ 10000)
    | none => false
  | .dateV _ => false

/-- Channel list config.SALES_CHANNELS (config.py lines 97-105). -/
def SALES_CHANNELS : List String :=
  ["Amazon FBA", "Amazon Easyship", "Flipkart", "Others", "Direct Sales", "Retail",
   "Wholesale"]

/-- Check `_validate_sales_channel` (data_validation.py lines 328-335):
membership in the configured channel list; non-strings are not members. -/
def validate_sales_channel : PyVal → Bool
  | .str s => SALES_CHANNELS.contains s
  | _ => false

/-- Check `_validate_order_id` (data_validation.py lines 337-344): anchored
regex, an alphanumeric-or-hyphen string of length 5 to 20. -/
def validate_order_id : PyVal → Bool
  | .str s =>
    decide (5 ≤ s.length ∧ s.length ≤ 20) && s.toList.all (fun c => c.isAlphanum || c = '-')
  | _ => false

/-- Errors of the date check (data_validation.py lines 31-33). -/
def dateErrors (parseDate : String → Option Int) (today : Int) (d : SaleData) : List String :=
  match d.date with
  | some v => if validate_date parseDate today v then [] else ["Invalid date format or future date"]
  | none => []

/-- Errors of the product check (lines 36-38). -/
def productErrors (d : SaleData) : List String :=
  match d.product with
  | some v => if validate_product v then [] else ["Invalid product: " ++ pyDisplay v]
  | none => []

/-- Errors of the quantity check (lines 41-43). -/
def quantityErrors (parseFloat : String → Option ℚ) (d : SaleData) : List String :=
  match d.quantity with
  | some v => if validate_quantity parseFloat v then [] else ["Quantity must be a positive number"]
  | none => []

/-- Errors of the price check (lines 46-48). -/
def priceErrors (parseFloat : String → Option ℚ) (d : SaleData) : List String :=
  match d.price with
  | some v => if validate_price parseFloat v then [] else ["Price must be a positive number"]
  | none => []

/-- Errors of the channel check (lines 51-53). -/
def channelErrors (d : SaleData) : List String :=
  match d.channel with
  | some v =>
    if validate_sales_channel v then [] else ["Invalid sales channel: " ++ pyDisplay v]
  | none => []

/-- Errors of the order-id check (lines 56-58): only run when the value is
present and truthy. -/
def orderIdErrors (d : SaleData) : List String :=
  match d.order_id with
  | some v =>
    if v.falsy then [] else if validate_order_id v then [] else ["Invalid order ID format"]
  | none => []

/-- Errors of the total-consistency check (lines 60-64): when the three keys
are present and numeric, a deviation beyond 0.01 from quantity times price is
a mismatch error; with any non-numeric value among them the Python arithmetic
raises TypeError, which the surrounding except clause (lines 66-68) turns into
a "Validation error" message. -/
def totalErrors (d : SaleData) : List String :=
  match d.quantity, d.price, d.total_amount with
  | some (.num q), some (.num p), some (.num t) =>
    if 1 / 100 < |t - q * p| then
      ["Total amount mismatch. Expected: " ++ pyDisplay (.num (q * p)) ++ ", Got: "
        ++ pyDisplay (.num t)]
    else []
  | some _, some _, some _ => ["Validation error: unsupported operand types"]
  | _, _, _ => []

/-- Validator `validate_sale_data` (data_validation.py lines 19-70): the
checks append their error messages in program order and the result is valid
exactly when no error was collected. -/
def validate_sale_data (parseDate : String → Option Int) (parseFloat : String → Option ℚ)
    (today : Int) (d : SaleData) : Bool × List String :=
  ((missingFieldErrors d ++ dateErrors parseDate today d ++ productErrors d
      ++ quantityErrors parseFloat d ++ priceErrors parseFloat d ++ channelErrors d
      ++ orderIdErrors d ++ totalErrors d).isEmpty,
   missingFieldErrors d ++ dateErrors parseDate today d ++ productErrors d
      ++ quantityErrors parseFloat d ++ priceErrors parseFloat d ++ channelErrors d
      ++ orderIdErrors d ++ totalErrors d)

/-- Claim C10: a required field that is present but falsy (zero quantity or
price, empty product or channel string) contributes the error
"Missing required field: <field>" and makes the sale invalid; in particular a
zero quantity is reported as a missing field, not merely as out of range. -/
theorem validate_sale_data_missing (parseDate : String → Option Int)
    (parseFloat : String → Option ℚ) (today : Int) (d : SaleData) (f : ReqField) (v : PyVal)
    (hget : f.get d = some v) (hfalsy : v.falsy = true) :
    ("Missing required field: " ++ f.fieldName)
      ∈ (validate_sale_data parseDate parseFloat today d).2
    ∧ (validate_sale_data parseDate parseFloat today d).1 = false := by
  have hmem0 : ("Missing required field: " ++ f.fieldName) ∈ missingFieldErrors d := by
    apply List.mem_map_of_mem
    apply List.mem_filter.mpr
    refine ⟨?_, by simp [missingOrFalsy, hget, hfalsy]⟩
    cases f <;> simp [requiredFields]
  have hmem : ("Missing required field: " ++ f.fieldName)
      ∈ (validate_sale_data parseDate parseFloat today d).2 := by
    show _ ∈ missingFieldErrors d ++ dateErrors parseDate today d ++ productErrors d
      ++ quantityErrors parseFloat d ++ priceErrors parseFloat d ++ channelErrors d
      ++ orderIdErrors d ++ totalErrors d
    exact List.mem_append_left _ (List.mem_append_left _ (List.mem_append_left _
      (List.mem_append_left _ (List.mem_append_left _ (List.mem_append_left _
        (List.mem_append_left _ hmem0))))))
  refine ⟨hmem, ?_⟩
  have hne := List.ne_nil_of_mem hmem
  show (validate_sale_data parseDate parseFloat today d).2.isEmpty = false
  cases hl : (validate_sale_data parseDate parseFloat today d).2 with
  | nil => exact absurd hl hne
  | cons a l => rfl

/-- Constant parser standing for a datetime library that accepts nothing. -/
def noParseDate : String → Option Int := fun _ => none

/-- Constant float parser that accepts nothing. -/
def noParseFloat : String → Option ℚ := fun _ => none

/-- Sale dict with quantity 0 and every other required field present and
truthy. -/
def saleD0 : SaleData :=
  { date := some (.dateV 0), product := some (.str "1.0kg"), quantity := some (.num 0),
    price := some (.num 100), channel := some (.str "Retail"), order_id := none,
    total_amount := none }

/-- Witness for C10 at a sale dict with quantity 0. -/
theorem validate_sale_data_missing_witness :
    (ReqField.quantity.get saleD0 = some (PyVal.num 0) ∧ (PyVal.num 0).falsy = true)
    ∧ ("Missing required field: " ++ ReqField.quantity.fieldName)
      ∈ (validate_sale_data noParseDate noParseFloat 0 saleD0).2
    ∧ (validate_sale_data noParseDate noParseFloat 0 saleD0).1 = false := by
  have h := validate_sale_data_missing noParseDate noParseFloat 0 saleD0 ReqField.quantity
    (PyVal.num 0) rfl (by norm_num [PyVal.falsy])
  exact ⟨⟨rfl, by norm_num [PyVal.falsy]⟩, h.1, h.2⟩

end Inv
